import Mathlib

/-!
Shallow embedding of `src/projeto-final.py` (smart-home control core):
the device contract and its concrete variants, the device factory, the
observer fan-out (`Notificacao`), the operation-mode strategies, the
reversible command protocol, and the `CentralController` singleton.

Python object references to devices are modelled by indices into an
explicit device store (`Store`); in-place mutation becomes explicit
state passing, and Python exceptions become `Except` results whose
error payload carries the state at the moment the exception escapes
(Python mutations performed before a `raise` persist, and the model
must show them).

Note on identifier spelling: the source file misspells several names at
their definition or use sites (`Dispositovo` for the abstract base that
every later annotation calls `Dispositivo`, `Notificacao` for the class
that every later call site names `Notificador`, `DispositvosFactory`
for the factory that the driver calls `DispositivosFactory`).  The
embedding identifies each such pair as one entity and keeps one
spelling for it.
-/

set_option maxHeartbeats 1000000

namespace CasaInteligente

/-- The concrete class of a device, as Python `isinstance` sees it:
the three factory-built classes `Luz`, `Camera`, `SensorMovimento`,
and `outro` for any other `Dispositivo` subclass (e.g. the
`PhilipsHueAdapter` or a decorator), carrying its class name. -/
inductive DevTag where
  | luz
  | camera
  | sensor
  | outro (nome : String)
  deriving DecidableEq, Repr

/-- A device.  `estado` is the single on/off flag each concrete variant
keeps (`_ligada` in `Luz`, `_gravando` in `Camera`, `_ativo` in
`SensorMovimento`, the adapter's `_api.on`).  The abstract base
`Dispositovo`/`Dispositivo` is open to externally supplied subclasses
whose actuators may raise; `falhaLigar`/`falhaDesligar` model such a
subclass (the factory-built devices have both set to `false` and never
raise). -/
structure Dispositivo where
  tag : DevTag
  estado : Bool
  falhaLigar : Bool
  falhaDesligar : Bool
  deriving DecidableEq, Repr

/-- `ligar`: sets the on/off flag to `True`; a raising subclass throws
instead (before mutating). -/
def Dispositivo.ligar (d : Dispositivo) : Except Unit Dispositivo :=
  if d.falhaLigar then .error () else .ok { d with estado := true }

/-- `desligar`: sets the on/off flag to `False`; a raising subclass
throws instead (before mutating). -/
def Dispositivo.desligar (d : Dispositivo) : Except Unit Dispositivo :=
  if d.falhaDesligar then .error () else .ok { d with estado := false }

/-- `status`: the human-readable state string each concrete variant
returns (`outro` uses the `PhilipsHueAdapter` strings, the one other
concrete status implementation in the source). -/
def Dispositivo.status (d : Dispositivo) : String :=
  match d.tag with
  | .luz => if d.estado then "Luz: Ligada" else "Luz: Desligada"
  | .camera => if d.estado then "Câmera: Gravando" else "Câmera:Desligada"
  | .sensor => if d.estado then "Sensor: Ativo" else "Sensor: Desligado"
  | .outro _ => if d.estado then "Luz Hue: Ligada" else "Luz Hue: Desligada"

/-- Python `dispositivo.__class__.__name__`. -/
def Dispositivo.nomeClasse (d : Dispositivo) : String :=
  match d.tag with
  | .luz => "Luz"
  | .camera => "Camera"
  | .sensor => "SensorMovimento"
  | .outro n => n

namespace DispositvosFactory

/-- `DispositvosFactory.criar`: maps the tag string through the
dictionary to a freshly constructed device (each `__init__` starts with
the flag `False`), raising `ValueError` for an unknown tag. -/
def criar (tipo : String) : Except String Dispositivo :=
  if tipo = "luz" then .ok ⟨.luz, false, false, false⟩
  else if tipo = "camera" then .ok ⟨.camera, false, false, false⟩
  else if tipo = "sensor" then .ok ⟨.sensor, false, false, false⟩
  else .error ("Tipo desconhecido:" ++ tipo)

end DispositvosFactory

/-- The heap of live device objects; a Python reference to a device is
an index into it. -/
abbrev Store := List Dispositivo

/-- Dereference-and-`ligar` through a device reference.  A dangling
index cannot arise from the source (every reference the controller
holds was a live object); it is mapped to an error. -/
def storeLigar (s : Store) (i : Nat) : Except Unit Store :=
  match s[i]? with
  | some d => d.ligar.map (fun d' => s.set i d')
  | none => .error ()

/-- Dereference-and-`desligar` through a device reference. -/
def storeDesligar (s : Store) (i : Nat) : Except Unit Store :=
  match s[i]? with
  | some d => d.desligar.map (fun d' => s.set i d')
  | none => .error ()

/-- `status` of the device behind reference `i`. -/
def statusDe (s : Store) (i : Nat) : String :=
  match s[i]? with
  | some d => d.status
  | none => ""

/-- One effect an observer's `atualizar` override may perform on the
notifier during its callback.  `Observador.atualizar` is abstract; the
only concrete observer in the source (`AppUsuario`) just prints, i.e.
performs no action, but the claims range over subclasses that
deregister or register during their own callback. -/
inductive ObsAcao where
  | remover (oid : Nat)
  | registra (oid : Nat)
  deriving DecidableEq, Repr

/-- An observer: `oid` models Python object identity (the default `==`
used by `list.remove`), `acoes` the effects its `atualizar` performs on
the notifier, in order. -/
structure Observador where
  oid : Nat
  acoes : List ObsAcao
  deriving DecidableEq, Repr

namespace Notificacao

/-- `registra`: appends the observer to the list (duplicates allowed). -/
def registra (l : List Observador) (obs : Observador) : List Observador :=
  l ++ [obs]

/-- `remover`: Python `list.remove` — deletes the first element equal
to `obs` (default object equality is identity, modelled by `oid`), and
raises `ValueError` when no element matches. -/
def remover (l : List Observador) (obs : Observador) :
    Except Unit (List Observador) :=
  match l with
  | [] => .error ()
  | x :: xs =>
    if x.oid = obs.oid then .ok xs
    else (remover xs obs).map (fun ys => x :: ys)

/-- Runs one observer's callback actions against the current observer
list.  A `remover` of an absent observer raises `ValueError`, which
escapes the callback; the error payload is the list at that moment
(observers registered mid-call carry no actions of their own, which is
enough: a mid-call registration is never invoked within the same
`notificar`). -/
def aplicaAcoes (cur : List Observador) :
    List ObsAcao → Except (List Observador) (List Observador)
  | [] => .ok cur
  | ObsAcao.remover oid :: resto =>
    match remover cur ⟨oid, []⟩ with
    | .ok cur' => aplicaAcoes cur' resto
    | .error _ => .error cur
  | ObsAcao.registra oid :: resto => aplicaAcoes (registra cur ⟨oid, []⟩) resto

/-- The loop of `notificar`: iterates over the call-time snapshot
(`list(self._observadores)`) while callbacks mutate the live list
(`cur`).  The log records each delivered `(observer, event)` pair in
delivery order; an exception escaping a callback aborts the loop,
carrying the live list and the deliveries made so far. -/
def notificarAux (evento : String) :
    List Observador → List Observador → List (Nat × String) →
      Except (List Observador × List (Nat × String))
        (List Observador × List (Nat × String))
  | cur, [], log => .ok (cur, log)
  | cur, o :: resto, log =>
    match aplicaAcoes cur o.acoes with
    | .error cur' => .error (cur', log ++ [(o.oid, evento)])
    | .ok cur' => notificarAux evento cur' resto (log ++ [(o.oid, evento)])

/-- `notificar`: snapshot-then-iterate delivery of `evento`. -/
def notificar (l : List Observador) (evento : String) :
    Except (List Observador × List (Nat × String))
      (List Observador × List (Nat × String)) :=
  notificarAux evento l l []

end Notificacao

/-- The three strategy variants. -/
inductive ModoOperacao where
  | economia
  | conforto
  | seguranca
  deriving DecidableEq, Repr

/-- Python `modo.__class__.__name__`. -/
def ModoOperacao.nomeClasse : ModoOperacao → String
  | .economia => "ModoEconomia"
  | .conforto => "ModoConforto"
  | .seguranca => "ModoSeguranca"

/-- `ModoEconomia.aplicar`: `desligar` every device, with the
per-device `try`/`except Exception: pass` of the source — a raising
device is skipped and the loop continues. -/
def aplicarEconomia : Store → List Nat → Store
  | s, [] => s
  | s, i :: resto =>
    match storeDesligar s i with
    | .ok s' => aplicarEconomia s' resto
    | .error _ => aplicarEconomia s resto

/-- `ModoConforto.aplicar`: `ligar` every device, same per-device
`try`/`except` as `ModoEconomia`. -/
def aplicarConforto : Store → List Nat → Store
  | s, [] => s
  | s, i :: resto =>
    match storeLigar s i with
    | .ok s' => aplicarConforto s' resto
    | .error _ => aplicarConforto s resto

/-- `ModoSeguranca.aplicar`: `isinstance` dispatch — sensors and
cameras get `ligar`, `Luz` gets `desligar`, anything else is left
alone.  There is no `try`/`except` in this variant: an exception from a
device escapes `aplicar`, leaving the remaining devices untouched; the
error payload is the store at that moment. -/
def aplicarSeguranca : Store → List Nat → Except Store Store
  | s, [] => .ok s
  | s, i :: resto =>
    match s[i]? with
    | none => .error s
    | some d =>
      match d.tag with
      | .sensor =>
        match d.ligar with
        | .ok d' => aplicarSeguranca (s.set i d') resto
        | .error _ => .error s
      | .camera =>
        match d.ligar with
        | .ok d' => aplicarSeguranca (s.set i d') resto
        | .error _ => .error s
      | .luz =>
        match d.desligar with
        | .ok d' => aplicarSeguranca (s.set i d') resto
        | .error _ => .error s
      | .outro _ => aplicarSeguranca s resto

/-- Strategy dispatch for `modo.aplicar(self._dispositivos)`. -/
def ModoOperacao.aplicar : ModoOperacao → Store → List Nat → Except Store Store
  | .economia, s, ids => .ok (aplicarEconomia s ids)
  | .conforto, s, ids => .ok (aplicarConforto s ids)
  | .seguranca, s, ids => aplicarSeguranca s ids

/-- The two command variants, each bound to one device reference. -/
inductive Command where
  | ligar (disp : Nat)
  | desligar (disp : Nat)
  deriving DecidableEq, Repr

/-- `executar`: `LigarCommand` turns its device on, `DesligarCommand`
turns it off. -/
def Command.executar : Command → Store → Except Unit Store
  | .ligar i, s => storeLigar s i
  | .desligar i, s => storeDesligar s i

/-- `desfazer`: the logical complement of `executar`. -/
def Command.desfazer : Command → Store → Except Unit Store
  | .ligar i, s => storeDesligar s i
  | .desligar i, s => storeLigar s i

/-- Python `cmd.__class__.__name__`. -/
def Command.nomeClasse : Command → String
  | .ligar _ => "LigarCommand"
  | .desligar _ => "DesligarCommand"

/-- The device reference a command is bound to. -/
def Command.dispId : Command → Nat
  | .ligar i => i
  | .desligar i => i

/-- The on/off flag value `executar` drives the device to. -/
def Command.alvo : Command → Bool
  | .ligar _ => true
  | .desligar _ => false

/-- The singleton controller's attribute record: device registry
(references, insertion order), command history (append at end, pop from
end), current mode, and the injected notifier's observer list. -/
structure CentralController where
  dispositivos : List Nat
  historico : List Command
  modo : Option ModoOperacao
  notificador : List Observador
  deriving DecidableEq, Repr

/-- A controller operation yields the controller, the device store, and
the list of event strings passed to `notificar`; the error side carries
the same data as of the moment the exception escapes (mutations made
before the raise persist). -/
abbrev CtrlRes := CentralController × Store × List String

/-- Python `dispositivo.__class__.__name__` through a reference. -/
def nomeDispositivo (s : Store) (i : Nat) : String :=
  match s[i]? with
  | some d => d.nomeClasse
  | none => ""

namespace CentralController

/-- `adicionar_dispositivo`: appends the device to the registry, then
notifies `"Dispositivo adicionado: <class>"`. -/
def adicionarDispositivo (cc : CentralController) (s : Store) (i : Nat) :
    Except CtrlRes CtrlRes :=
  let cc1 := { cc with dispositivos := cc.dispositivos ++ [i] }
  let msg := "Dispositivo adicionado: " ++ nomeDispositivo s i
  match Notificacao.notificar cc1.notificador msg with
  | .ok (obs, _) => .ok ({ cc1 with notificador := obs }, s, [msg])
  | .error (obs, _) => .error ({ cc1 with notificador := obs }, s, [msg])

/-- `executar_comando`: runs `cmd.executar()` first; only then pushes
the command onto the history and notifies
`"Comando executado: <class> às <datetime.now()>"` (the wall-clock
reading is the `agora` argument).  An exception from `executar`
escapes before the push and before any notification. -/
def executarComando (cc : CentralController) (s : Store) (cmd : Command)
    (agora : String) : Except CtrlRes CtrlRes :=
  match cmd.executar s with
  | .error _ => .error (cc, s, [])
  | .ok s1 =>
    let cc1 := { cc with historico := cc.historico ++ [cmd] }
    let msg := "Comando executado: " ++ cmd.nomeClasse ++ " às " ++ agora
    match Notificacao.notificar cc1.notificador msg with
    | .ok (obs, _) => .ok ({ cc1 with notificador := obs }, s1, [msg])
    | .error (obs, _) => .error ({ cc1 with notificador := obs }, s1, [msg])

/-- `desfazer_ultimo`: empty history returns at once; otherwise pops
the most recent command (pop precedes `desfazer`, so a raising
`desfazer` leaves the entry already removed), runs its `desfazer`, and
notifies.  The source wraps the class name in stray single quotes in
this message; the quotes are omitted here. -/
def desfazerUltimo (cc : CentralController) (s : Store) (agora : String) :
    Except CtrlRes CtrlRes :=
  match cc.historico.getLast? with
  | none => .ok (cc, s, [])
  | some cmd =>
    let cc1 := { cc with historico := cc.historico.dropLast }
    match cmd.desfazer s with
    | .error _ => .error (cc1, s, [])
    | .ok s1 =>
      let msg := "Comando desfeito: " ++ cmd.nomeClasse ++ " às " ++ agora
      match Notificacao.notificar cc1.notificador msg with
      | .ok (obs, _) => .ok ({ cc1 with notificador := obs }, s1, [msg])
      | .error (obs, _) => .error ({ cc1 with notificador := obs }, s1, [msg])

/-- `set_modo`: stores the mode; when it is not `None`, applies it over
the current registry and notifies `"Modo definido: <class>"`.  `None`
clears the mode with no actuation and no event. -/
def setModo (cc : CentralController) (s : Store) (modo : Option ModoOperacao) :
    Except CtrlRes CtrlRes :=
  let cc1 := { cc with modo := modo }
  match modo with
  | none => .ok (cc1, s, [])
  | some m =>
    match m.aplicar s cc1.dispositivos with
    | .error s1 => .error (cc1, s1, [])
    | .ok s1 =>
      let msg := "Modo definido: " ++ m.nomeClasse
      match Notificacao.notificar cc1.notificador msg with
      | .ok (obs, _) => .ok ({ cc1 with notificador := obs }, s1, [msg])
      | .error (obs, _) => .error ({ cc1 with notificador := obs }, s1, [msg])

end CentralController

/-- Process-wide class state: the `CentralController._instancia` class
attribute. -/
structure Processo where
  instancia : Option CentralController
  deriving DecidableEq, Repr

/-- Constructing `CentralController(notifier)`: `__new__` returns the
existing instance when there is one, and `__init__`'s
`hasattr` guard makes the call a pure read in that case — later
arguments are ignored.  On first construction the attributes are set
once, with the injected notifier.  The default branch
(`notifier or Notificador()`) references the name `Notificador`, which
the source never defines (the class is `Notificacao`), so a first
construction without a notifier raises `NameError`. -/
def constroiController (p : Processo) (notifier : Option (List Observador)) :
    Except Unit (Processo × CentralController) :=
  match p.instancia with
  | some cc => .ok (p, cc)
  | none =>
    match notifier with
    | some n =>
      let cc : CentralController := ⟨[], [], none, n⟩
      .ok (⟨some cc⟩, cc)
    | none => .error ()

/-- Driver for a whole sequence of `adicionar_dispositivo` calls,
accumulating the emitted events; an exception from one call aborts the
sequence. -/
def adicionarTodos (cc : CentralController) (s : Store) :
    List Nat → Except CtrlRes CtrlRes
  | [] => .ok (cc, s, [])
  | i :: resto =>
    match cc.adicionarDispositivo s i with
    | .error e => .error e
    | .ok (cc1, s1, evs) =>
      match adicionarTodos cc1 s1 resto with
      | .error (cc2, s2, evs') => .error (cc2, s2, evs ++ evs')
      | .ok (cc2, s2, evs') => .ok (cc2, s2, evs ++ evs')

/-! ### Characterizations used in theorem statements -/

/-- Net effect of `ModoEconomia` on one device: off, unless its
`desligar` raises. -/
def ecoTrans (d : Dispositivo) : Dispositivo :=
  if d.falhaDesligar then d else { d with estado := false }

/-- Net effect of `ModoConforto` on one device: on, unless its `ligar`
raises. -/
def confTrans (d : Dispositivo) : Dispositivo :=
  if d.falhaLigar then d else { d with estado := true }

/-- Net effect of `ModoSeguranca` on one (non-raising) device: sensors
and cameras on, lights off, anything else untouched. -/
def segTrans (d : Dispositivo) : Dispositivo :=
  match d.tag with
  | .sensor => { d with estado := true }
  | .camera => { d with estado := true }
  | .luz => { d with estado := false }
  | .outro _ => d

lemma ecoTrans_idem (d : Dispositivo) : ecoTrans (ecoTrans d) = ecoTrans d := by
  unfold ecoTrans; by_cases h : d.falhaDesligar <;> simp [h]

lemma confTrans_idem (d : Dispositivo) : confTrans (confTrans d) = confTrans d := by
  unfold confTrans; by_cases h : d.falhaLigar <;> simp [h]

lemma segTrans_idem (d : Dispositivo) : segTrans (segTrans d) = segTrans d := by
  unfold segTrans; cases h : d.tag <;> simp [h]

lemma segTrans_tag (d : Dispositivo) : (segTrans d).tag = d.tag := by
  unfold segTrans; cases h : d.tag <;> simp [h]

lemma segTrans_falhas (d : Dispositivo) :
    (segTrans d).falhaLigar = d.falhaLigar ∧
      (segTrans d).falhaDesligar = d.falhaDesligar := by
  unfold segTrans; cases h : d.tag <;> simp [h]

/-- `status` is injective in the on/off flag for a fixed tag (each
variant's two strings differ). -/
lemma status_eq_iff (t : DevTag) (b c f1 f2 g1 g2 : Bool) :
    Dispositivo.status ⟨t, b, f1, f2⟩ = Dispositivo.status ⟨t, c, g1, g2⟩ ↔
      b = c := by
  cases t <;> cases b <;> cases c <;> simp [Dispositivo.status]

/-! ### Notifier fan-out lemmas -/

namespace Notificacao

lemma notificarAux_ok_log (evento : String) :
    ∀ (snap cur : List Observador) (log : List (Nat × String))
      (cur' : List Observador) (log' : List (Nat × String)),
      notificarAux evento cur snap log = .ok (cur', log') →
      log' = log ++ snap.map (fun o => (o.oid, evento))
  | [], cur, log, cur', log', h => by
    simp [notificarAux] at h
    simp [h.2]
  | o :: resto, cur, log, cur', log', h => by
    unfold notificarAux at h
    cases hAc : aplicaAcoes cur o.acoes with
    | error c => rw [hAc] at h; exact absurd h (by simp)
    | ok c =>
      rw [hAc] at h
      have := notificarAux_ok_log evento resto c
        (log ++ [(o.oid, evento)]) cur' log' h
      simpa using this

lemma notificarAux_sem_acoes (evento : String) :
    ∀ (snap cur : List Observador) (log : List (Nat × String)),
      (∀ o ∈ snap, o.acoes = []) →
      notificarAux evento cur snap log =
        .ok (cur, log ++ snap.map (fun o => (o.oid, evento)))
  | [], cur, log, _ => by simp [notificarAux]
  | o :: resto, cur, log, h => by
    have ho : o.acoes = [] := h o (by simp)
    have hr : ∀ x ∈ resto, x.acoes = [] := fun x hx => h x (by simp [hx])
    unfold notificarAux
    rw [ho]
    simp only [aplicaAcoes]
    rw [notificarAux_sem_acoes evento resto cur (log ++ [(o.oid, evento)]) hr]
    simp

/-- Delivery to observers whose callbacks do nothing (the only concrete
observer in the source, `AppUsuario`, just prints) succeeds, preserves
the observer list, and logs one delivery per observer in order. -/
lemma notificar_sem_acoes (l : List Observador) (evento : String)
    (h : ∀ o ∈ l, o.acoes = []) :
    notificar l evento = .ok (l, l.map (fun o => (o.oid, evento))) := by
  unfold notificar
  rw [notificarAux_sem_acoes evento l l [] h]
  simp

end Notificacao

/-! ### Mode-application lemmas -/

/-- Combination step for a mode loop that rewrote device `i` to
`trans d` and then processed the rest. -/
lemma step_set_char (trans : Dispositivo → Dispositivo)
    (hidem : ∀ d, trans (trans d) = trans d)
    (s : Store) (i : Nat) (d : Dispositivo) (hd : s[i]? = some d)
    (resto : List Nat) (f : Store)
    (hf : ∀ j, f[j]? =
      if j ∈ resto then ((s.set i (trans d))[j]?).map trans
      else (s.set i (trans d))[j]?) :
    ∀ j, f[j]? = if j ∈ i :: resto then (s[j]?).map trans
      else s[j]? := by
  intro j
  have hlen : i < s.length := by rw [List.getElem?_eq_some] at hd; exact hd.1
  rw [hf j]
  by_cases hjr : j ∈ resto
  · by_cases hji : j = i
    · subst hji
      rw [List.getElem?_set_eq_of_lt _ hlen]
      simp [hjr, hd, hidem]
    · rw [List.getElem?_set_ne (fun h => hji h.symm)]
      simp [hjr]
  · by_cases hji : j = i
    · subst hji
      rw [List.getElem?_set_eq_of_lt _ hlen]
      simp [hjr, hd]
    · rw [List.getElem?_set_ne (fun h => hji h.symm)]
      simp [hjr, hji]

/-- Combination step for a mode loop that left device `i` unchanged
(absent reference, suppressed failure, or untouched category). -/
lemma step_id_char (trans : Dispositivo → Dispositivo)
    (s : Store) (i : Nat) (htriv : (s[i]?).map trans = s[i]?)
    (resto : List Nat) (f : Store)
    (hf : ∀ j, f[j]? = if j ∈ resto then (s[j]?).map trans
      else s[j]?) :
    ∀ j, f[j]? = if j ∈ i :: resto then (s[j]?).map trans
      else s[j]? := by
  intro j
  rw [hf j]
  by_cases hjr : j ∈ resto
  · simp [hjr]
  · by_cases hji : j = i
    · subst hji; simp [hjr, htriv]
    · simp [hjr, hji]

/-- `ModoEconomia.aplicar` as a per-device transform: every referenced
device whose `desligar` does not raise ends up off, a raising one is
left as it was, unreferenced devices are untouched. -/
lemma aplicarEconomia_get? :
    ∀ (ids : List Nat) (s : Store) (j : Nat),
      (aplicarEconomia s ids)[j]? =
        if j ∈ ids then (s[j]?).map ecoTrans else s[j]?
  | [], s, j => by simp [aplicarEconomia]
  | i :: resto, s, j => by
    cases hd : s[i]? with
    | none =>
      have hs : storeDesligar s i = .error () := by simp [storeDesligar, hd]
      have hf : ∀ j : Nat, (aplicarEconomia s (i :: resto))[j]? =
          (aplicarEconomia s resto)[j]? := by
        intro j'; simp [aplicarEconomia, hs]
      rw [hf j]
      exact step_id_char ecoTrans s i (by simp [hd]) resto _
        (fun j' => aplicarEconomia_get? resto s j') j
    | some d =>
      cases hfd : d.falhaDesligar with
      | true =>
        have hs : storeDesligar s i = .error () := by
          simp [storeDesligar, hd, Dispositivo.desligar, hfd, Except.map]
        have hf : ∀ j : Nat, (aplicarEconomia s (i :: resto))[j]? =
            (aplicarEconomia s resto)[j]? := by
          intro j'; simp [aplicarEconomia, hs]
        rw [hf j]
        refine step_id_char ecoTrans s i ?_ resto _
          (fun j' => aplicarEconomia_get? resto s j') j
        simp [hd, ecoTrans, hfd]
      | false =>
        have he : ecoTrans d = { d with estado := false } := by
          simp [ecoTrans, hfd]
        have hs : storeDesligar s i = .ok (s.set i (ecoTrans d)) := by
          simp [storeDesligar, hd, Dispositivo.desligar, hfd, he, Except.map]
        have hf : ∀ j : Nat, (aplicarEconomia s (i :: resto))[j]? =
            (aplicarEconomia (s.set i (ecoTrans d)) resto)[j]? := by
          intro j'; simp [aplicarEconomia, hs]
        rw [hf j]
        exact step_set_char ecoTrans ecoTrans_idem s i d hd resto _
          (fun j' => aplicarEconomia_get? resto (s.set i (ecoTrans d)) j') j

/-- `ModoConforto.aplicar` as a per-device transform: every referenced
device whose `ligar` does not raise ends up on, a raising one is left
as it was, unreferenced devices are untouched. -/
lemma aplicarConforto_get? :
    ∀ (ids : List Nat) (s : Store) (j : Nat),
      (aplicarConforto s ids)[j]? =
        if j ∈ ids then (s[j]?).map confTrans else s[j]?
  | [], s, j => by simp [aplicarConforto]
  | i :: resto, s, j => by
    cases hd : s[i]? with
    | none =>
      have hs : storeLigar s i = .error () := by simp [storeLigar, hd]
      have hf : ∀ j : Nat, (aplicarConforto s (i :: resto))[j]? =
          (aplicarConforto s resto)[j]? := by
        intro j'; simp [aplicarConforto, hs]
      rw [hf j]
      exact step_id_char confTrans s i (by simp [hd]) resto _
        (fun j' => aplicarConforto_get? resto s j') j
    | some d =>
      cases hfd : d.falhaLigar with
      | true =>
        have hs : storeLigar s i = .error () := by
          simp [storeLigar, hd, Dispositivo.ligar, hfd, Except.map]
        have hf : ∀ j : Nat, (aplicarConforto s (i :: resto))[j]? =
            (aplicarConforto s resto)[j]? := by
          intro j'; simp [aplicarConforto, hs]
        rw [hf j]
        refine step_id_char confTrans s i ?_ resto _
          (fun j' => aplicarConforto_get? resto s j') j
        simp [hd, confTrans, hfd]
      | false =>
        have he : confTrans d = { d with estado := true } := by
          simp [confTrans, hfd]
        have hs : storeLigar s i = .ok (s.set i (confTrans d)) := by
          simp [storeLigar, hd, Dispositivo.ligar, hfd, he, Except.map]
        have hf : ∀ j : Nat, (aplicarConforto s (i :: resto))[j]? =
            (aplicarConforto (s.set i (confTrans d)) resto)[j]? := by
          intro j'; simp [aplicarConforto, hs]
        rw [hf j]
        exact step_set_char confTrans confTrans_idem s i d hd resto _
          (fun j' => aplicarConforto_get? resto (s.set i (confTrans d)) j') j

/-- Setting one device to its `segTrans` image keeps every element
non-raising. -/
lemma flags_set_segTrans (s : Store) (i : Nat) (d : Dispositivo)
    (hW : ∀ x ∈ s, x.falhaLigar = false ∧ x.falhaDesligar = false)
    (hf : d.falhaLigar = false ∧ d.falhaDesligar = false) :
    ∀ x ∈ s.set i (segTrans d),
      x.falhaLigar = false ∧ x.falhaDesligar = false := by
  intro x hx
  rcases List.mem_or_eq_of_mem_set hx with h | h
  · exact hW x h
  · rw [h, (segTrans_falhas d).1, (segTrans_falhas d).2]; exact hf

/-- `ModoSeguranca.aplicar` on valid references to non-raising devices
succeeds and acts per category: sensors and cameras end up on, lights
off, every other device (and every unreferenced one) untouched. -/
lemma aplicarSeguranca_ok :
    ∀ (ids : List Nat) (s : Store),
      (∀ i ∈ ids, i < s.length) →
      (∀ d ∈ s, d.falhaLigar = false ∧ d.falhaDesligar = false) →
      ∃ s', aplicarSeguranca s ids = .ok s' ∧
        ∀ j : Nat, s'[j]? = if j ∈ ids then (s[j]?).map segTrans else s[j]?
  | [], s, _, _ => ⟨s, by simp [aplicarSeguranca], by simp⟩
  | i :: resto, s, hids, hW => by
    have hi : i < s.length := hids i (by simp)
    obtain ⟨d, hd⟩ : ∃ d, s[i]? = some d := ⟨s[i], List.getElem?_eq_getElem hi⟩
    have hflags := hW d (List.getElem?_mem hd)
    have hrest : ∀ x ∈ resto, x < s.length := fun x hx => hids x (by simp [hx])
    cases ht : d.tag with
    | outro nome =>
      have hstep : aplicarSeguranca s (i :: resto) = aplicarSeguranca s resto := by
        simp [aplicarSeguranca, hd, ht]
      obtain ⟨s', hok, hchar⟩ := aplicarSeguranca_ok resto s hrest hW
      refine ⟨s', by rw [hstep]; exact hok, ?_⟩
      refine step_id_char segTrans s i ?_ resto s' hchar
      simp [hd, segTrans, ht]
    | sensor =>
      have hseg : segTrans d = { d with estado := true } := by simp [segTrans, ht]
      have hlig : d.ligar = .ok (segTrans d) := by
        simp [Dispositivo.ligar, hflags.1, hseg]
      have hstep : aplicarSeguranca s (i :: resto) =
          aplicarSeguranca (s.set i (segTrans d)) resto := by
        simp [aplicarSeguranca, hd, ht, hlig]
      have hids1 : ∀ x ∈ resto, x < (s.set i (segTrans d)).length := by
        simpa using hrest
      obtain ⟨s', hok, hchar⟩ := aplicarSeguranca_ok resto _ hids1
        (flags_set_segTrans s i d hW hflags)
      exact ⟨s', by rw [hstep]; exact hok,
        step_set_char segTrans segTrans_idem s i d hd resto s' hchar⟩
    | camera =>
      have hseg : segTrans d = { d with estado := true } := by simp [segTrans, ht]
      have hlig : d.ligar = .ok (segTrans d) := by
        simp [Dispositivo.ligar, hflags.1, hseg]
      have hstep : aplicarSeguranca s (i :: resto) =
          aplicarSeguranca (s.set i (segTrans d)) resto := by
        simp [aplicarSeguranca, hd, ht, hlig]
      have hids1 : ∀ x ∈ resto, x < (s.set i (segTrans d)).length := by
        simpa using hrest
      obtain ⟨s', hok, hchar⟩ := aplicarSeguranca_ok resto _ hids1
        (flags_set_segTrans s i d hW hflags)
      exact ⟨s', by rw [hstep]; exact hok,
        step_set_char segTrans segTrans_idem s i d hd resto s' hchar⟩
    | luz =>
      have hseg : segTrans d = { d with estado := false } := by simp [segTrans, ht]
      have hdes : d.desligar = .ok (segTrans d) := by
        simp [Dispositivo.desligar, hflags.2, hseg]
      have hstep : aplicarSeguranca s (i :: resto) =
          aplicarSeguranca (s.set i (segTrans d)) resto := by
        simp [aplicarSeguranca, hd, ht, hdes]
      have hids1 : ∀ x ∈ resto, x < (s.set i (segTrans d)).length := by
        simpa using hrest
      obtain ⟨s', hok, hchar⟩ := aplicarSeguranca_ok resto _ hids1
        (flags_set_segTrans s i d hW hflags)
      exact ⟨s', by rw [hstep]; exact hok,
        step_set_char segTrans segTrans_idem s i d hd resto s' hchar⟩

/-! ### Claims -/

/-- Claim C9: the device factory returns a freshly constructed device
of the corresponding variant for the tags "luz", "camera" and "sensor",
and raises the unknown-type `ValueError` exactly for every other
tag. -/
theorem C9_factory :
    DispositvosFactory.criar "luz" = .ok ⟨.luz, false, false, false⟩ ∧
    DispositvosFactory.criar "camera" = .ok ⟨.camera, false, false, false⟩ ∧
    DispositvosFactory.criar "sensor" = .ok ⟨.sensor, false, false, false⟩ ∧
    ∀ tipo : String,
      DispositvosFactory.criar tipo = .error ("Tipo desconhecido:" ++ tipo) ↔
        (tipo ≠ "luz" ∧ tipo ≠ "camera" ∧ tipo ≠ "sensor") := by
  refine ⟨rfl, rfl, rfl, ?_⟩
  intro tipo
  unfold DispositvosFactory.criar
  by_cases h1 : tipo = "luz" <;> by_cases h2 : tipo = "camera" <;>
    by_cases h3 : tipo = "sensor" <;> simp [h1, h2, h3]

/-- Claim C6: `desfazer_ultimo` on an empty history is a silent no-op:
the controller (registry, history, mode and observer list) and the
device store come back unchanged, and no event is emitted. -/
theorem C6_desfazer_vazio (cc : CentralController) (s : Store)
    (agora : String) (h : cc.historico = []) :
    cc.desfazerUltimo s agora = .ok (cc, s, []) := by
  unfold CentralController.desfazerUltimo
  rw [h]
  rfl

/-- Witness for C6 at a concrete controller with a device, a mode and
an observer but an empty history. -/
theorem C6_witness :
    CentralController.desfazerUltimo
        ⟨[0], [], some .economia, [⟨1, []⟩]⟩ [⟨.luz, true, false, false⟩] "t" =
      .ok (⟨[0], [], some .economia, [⟨1, []⟩]⟩,
        [⟨.luz, true, false, false⟩], []) :=
  C6_desfazer_vazio ⟨[0], [], some .economia, [⟨1, []⟩]⟩
    [⟨.luz, true, false, false⟩] "t" rfl

/-- Claim C10: when `cmd.executar()` raises inside `executar_comando`,
the exception propagates with the controller untouched — the command is
not pushed onto the history, registry and mode keep their values, and
no event is emitted, because push and notification happen strictly
after `executar` returns. -/
theorem C10_executar_excecao (cc : CentralController) (s : Store)
    (cmd : Command) (agora : String) (e : Unit)
    (h : cmd.executar s = .error e) :
    cc.executarComando s cmd agora = .error (cc, s, []) := by
  unfold CentralController.executarComando
  rw [h]

/-- Witness for C10: a `LigarCommand` bound to a device whose `ligar`
raises. -/
theorem C10_witness :
    CentralController.executarComando ⟨[0], [], none, []⟩
        [⟨.luz, false, true, false⟩] (.ligar 0) "t" =
      .error (⟨[0], [], none, []⟩, [⟨.luz, false, true, false⟩], []) :=
  C10_executar_excecao ⟨[0], [], none, []⟩ [⟨.luz, false, true, false⟩]
    (.ligar 0) "t" () (by rfl)

/-- Claim C2: any construction that finds the instance already created
returns that same instance with all attributes (registry, history,
mode, notifier) untouched, whatever arguments it passes; and after a
first construction injecting notifier `n1`, a second construction with
any other notifier argument still yields the first instance, whose
notifier is `n1` and whose registry, history and mode are those the
first construction set. -/
theorem C2_singleton :
    (∀ (p : Processo) (cc : CentralController)
        (n : Option (List Observador)), p.instancia = some cc →
        constroiController p n = .ok (p, cc)) ∧
    ∀ (n1 : List Observador) (n2 : Option (List Observador)),
      constroiController ⟨none⟩ (some n1) =
        .ok (⟨some ⟨[], [], none, n1⟩⟩, ⟨[], [], none, n1⟩) ∧
      constroiController ⟨some ⟨[], [], none, n1⟩⟩ n2 =
        .ok (⟨some ⟨[], [], none, n1⟩⟩, ⟨[], [], none, n1⟩) := by
  constructor
  · intro p cc n h
    unfold constroiController
    rw [h]
  · intro n1 n2
    exact ⟨rfl, rfl⟩

/-- Witness for C2: a second construction injecting a different
notifier returns the existing instance, which keeps the first
notifier. -/
theorem C2_witness :
    constroiController ⟨some ⟨[], [], none, [⟨0, []⟩]⟩⟩ (some [⟨1, []⟩]) =
      .ok (⟨some ⟨[], [], none, [⟨0, []⟩]⟩⟩, ⟨[], [], none, [⟨0, []⟩]⟩) :=
  C2_singleton.1 ⟨some ⟨[], [], none, [⟨0, []⟩]⟩⟩ ⟨[], [], none, [⟨0, []⟩]⟩
    (some [⟨1, []⟩]) rfl

/-- Claim C7 as stated is false: `remover` of an observer that is not
registered is Python `list.remove` on a list without a match — it
raises `ValueError` instead of being a silent no-op. -/
theorem C7_cex :
    Notificacao.remover [⟨1, []⟩] ⟨0, []⟩ = .error () := rfl

/-- Claim C7 (amended): `remover` deletes the first match (object
identity) when the observer is registered; when it is absent the call
raises `ValueError` — it is not a silent no-op. -/
theorem C7_remover (obs : Observador) :
    (∀ l : List Observador,
      Notificacao.remover l obs = .error () ↔ ∀ x ∈ l, x.oid ≠ obs.oid) ∧
    ∀ (l1 l2 : List Observador) (x : Observador),
      x.oid = obs.oid → (∀ y ∈ l1, y.oid ≠ obs.oid) →
      Notificacao.remover (l1 ++ x :: l2) obs = .ok (l1 ++ l2) := by
  constructor
  · intro l
    induction l with
    | nil => simp [Notificacao.remover]
    | cons x xs ih =>
      by_cases hx : x.oid = obs.oid
      · constructor
        · intro hcontra
          exact absurd hcontra (by simp [Notificacao.remover, hx])
        · intro hall
          exact absurd hx (hall x (by simp))
      · constructor
        · intro herr
          intro z hz
          rcases List.mem_cons.mp hz with rfl | hz'
          · exact hx
          · refine (ih.mp ?_) z hz'
            cases hr : Notificacao.remover xs obs with
            | ok ys =>
              exact absurd herr (by simp [Notificacao.remover, hx, hr, Except.map])
            | error e => rfl
        · intro hall
          have hxs : ∀ z ∈ xs, z.oid ≠ obs.oid := fun z hz => hall z (by simp [hz])
          have herr : Notificacao.remover xs obs = .error () := ih.mpr hxs
          simp [Notificacao.remover, hx, herr, Except.map]
  · intro l1 l2 x hx hl1
    induction l1 with
    | nil => simp [Notificacao.remover, hx]
    | cons y ys ih =>
      have hy : y.oid ≠ obs.oid := hl1 y (by simp)
      have hys : ∀ z ∈ ys, z.oid ≠ obs.oid := fun z hz => hl1 z (by simp [hz])
      have hr := ih hys
      simp [Notificacao.remover, hy, hr, Except.map]

/-- Witness for C7: removing the head observer succeeds and deletes
exactly that first match. -/
theorem C7_witness :
    Notificacao.remover ([] ++ (⟨0, []⟩ : Observador) :: [⟨1, []⟩]) ⟨0, []⟩ =
      .ok ([] ++ [⟨1, []⟩]) :=
  (C7_remover ⟨0, []⟩).2 [] [⟨1, []⟩] ⟨0, []⟩ rfl (by simp)

/-- Claim C4 as stated is false: an observer whose callback removes an
absent observer makes `list.remove` raise `ValueError` out of
`notificar`, and the other observer of the call-time snapshot (id 1)
is never notified. -/
theorem C4_cex :
    Notificacao.notificar [⟨0, [ObsAcao.remover 5]⟩, ⟨1, []⟩] "evt" =
      .error ([⟨0, [ObsAcao.remover 5]⟩, ⟨1, []⟩], [(0, "evt")]) ∧
    ¬ ((1, "evt") ∈ [((0 : Nat), "evt")]) := ⟨rfl, by decide⟩

/-- Claim C4 (amended): whenever the fan-out completes — every removal
performed by a callback finds its target registered — `notificar`
delivers the event to exactly the observers of the call-time snapshot,
each exactly once, in registration order, whatever registrations and
removals the callbacks perform on the live list. -/
theorem C4_snapshot (l : List Observador) (evento : String)
    (l' : List Observador) (log : List (Nat × String))
    (h : Notificacao.notificar l evento = .ok (l', log)) :
    log = l.map (fun o => (o.oid, evento)) := by
  have := Notificacao.notificarAux_ok_log evento l l [] l' log h
  simpa using this

/-- Witness for C4: an observer that deregisters itself during its own
callback does not disturb the delivery to the remaining observer. -/
theorem C4_witness :
    [((0 : Nat), "evt"), (1, "evt")] =
      List.map (fun o => (o.oid, "evt"))
        [(⟨0, [ObsAcao.remover 0]⟩ : Observador), ⟨1, []⟩] :=
  C4_snapshot [⟨0, [ObsAcao.remover 0]⟩, ⟨1, []⟩] "evt" [⟨1, []⟩]
    [(0, "evt"), (1, "evt")] rfl

/-- Claim C3 as stated is false: `ModoSeguranca.aplicar` has no
`try`/`except` — a camera whose `ligar` raises aborts the sweep, the
exception escapes `aplicar`, and the light after it is never actuated
(it stays on in the escaping state). -/
theorem C3_cex :
    ModoOperacao.aplicar .seguranca
        [⟨.camera, false, true, false⟩, ⟨.luz, true, false, false⟩] [0, 1] =
      .error [⟨.camera, false, true, false⟩, ⟨.luz, true, false, false⟩] :=
  rfl

/-- Claim C3 (amended): for the Eco and Comfort variants `aplicar`
never raises — each device's exception is suppressed locally (a raising
device is left as it was) and actuation continues for every remaining
referenced device; the Security variant has no such protection. -/
theorem C3_falha_suave :
    ∀ (s : Store) (ids : List Nat),
      (ModoOperacao.aplicar .economia s ids = .ok (aplicarEconomia s ids) ∧
        ∀ j : Nat, (aplicarEconomia s ids)[j]? =
          if j ∈ ids then (s[j]?).map ecoTrans else s[j]?) ∧
      (ModoOperacao.aplicar .conforto s ids = .ok (aplicarConforto s ids) ∧
        ∀ j : Nat, (aplicarConforto s ids)[j]? =
          if j ∈ ids then (s[j]?).map confTrans else s[j]?) :=
  fun s ids =>
    ⟨⟨rfl, fun j => aplicarEconomia_get? ids s j⟩,
     ⟨rfl, fun j => aplicarConforto_get? ids s j⟩⟩

/-- Sequencing `adicionar_dispositivo` calls over action-free
observers: each call appends its device reference to the registry and
emits exactly one naming event, leaving history, mode, observer list
and device store untouched. -/
lemma adicionarTodos_spec :
    ∀ (ids : List Nat) (cc : CentralController) (s : Store),
      (∀ o ∈ cc.notificador, o.acoes = []) →
      ∃ cc' : CentralController,
        adicionarTodos cc s ids =
          .ok (cc', s,
            ids.map (fun i => "Dispositivo adicionado: " ++ nomeDispositivo s i)) ∧
        cc'.dispositivos = cc.dispositivos ++ ids ∧
        cc'.historico = cc.historico ∧ cc'.modo = cc.modo ∧
        cc'.notificador = cc.notificador
  | [], cc, s, _ => ⟨cc, by simp [adicionarTodos], by simp, rfl, rfl, rfl⟩
  | i :: resto, cc, s, h => by
    have hnot := Notificacao.notificar_sem_acoes cc.notificador
      ("Dispositivo adicionado: " ++ nomeDispositivo s i) h
    have hadd : cc.adicionarDispositivo s i =
        .ok ({ cc with dispositivos := cc.dispositivos ++ [i] }, s,
          ["Dispositivo adicionado: " ++ nomeDispositivo s i]) := by
      unfold CentralController.adicionarDispositivo
      simp [hnot]
    obtain ⟨cc', hrun, hdisp, hhist, hmodo, hnoti⟩ :=
      adicionarTodos_spec resto
        { cc with dispositivos := cc.dispositivos ++ [i] } s (by simpa using h)
    refine ⟨cc', ?_, by rw [hdisp]; simp, by simpa using hhist,
      by simpa using hmodo, by simpa using hnoti⟩
    simp [adicionarTodos, hadd, hrun]

/-- Claim C8: every sequence of `adicionar_dispositivo` calls grows the
registry by exactly one entry per call, in call order, duplicates
allowed (append-only — no removal exists), leaves history, mode,
observer list and device store unchanged, and emits one
"Dispositivo adicionado" event naming each device's class. -/
theorem C8_adicionar (cc : CentralController) (s : Store) (ids : List Nat)
    (h : ∀ o ∈ cc.notificador, o.acoes = []) :
    ∃ cc' : CentralController,
      adicionarTodos cc s ids =
        .ok (cc', s,
          ids.map (fun i => "Dispositivo adicionado: " ++ nomeDispositivo s i)) ∧
      cc'.dispositivos = cc.dispositivos ++ ids ∧
      cc'.historico = cc.historico ∧ cc'.modo = cc.modo ∧
      cc'.notificador = cc.notificador :=
  adicionarTodos_spec ids cc s h

/-- Witness for C8: adding the same Luz twice (a duplicate) under one
action-free observer. -/
theorem C8_witness :
    ∃ cc' : CentralController,
      adicionarTodos ⟨[], [], none, [⟨7, []⟩]⟩
          [⟨DevTag.luz, false, false, false⟩] [0, 0] =
        .ok (cc', [⟨DevTag.luz, false, false, false⟩],
          List.map
            (fun i => "Dispositivo adicionado: " ++
              nomeDispositivo [⟨DevTag.luz, false, false, false⟩] i) [0, 0]) ∧
      cc'.dispositivos = [] ++ [0, 0] ∧
      cc'.historico = [] ∧ cc'.modo = none ∧ cc'.notificador = [⟨7, []⟩] :=
  C8_adicionar ⟨[], [], none, [⟨7, []⟩]⟩ [⟨DevTag.luz, false, false, false⟩]
    [0, 0] (by simp)

/-- Claim C5: Security mode turns on every referenced sensor and
camera, turns off every referenced light, and leaves any other device
untouched; concretely, `set_modo(ModoSeguranca())` over a registry of
one Luz (on), one Camera (off) and one SensorMovimento (off) leaves the
Luz reporting off and the Camera and SensorMovimento reporting on. -/
theorem C5_seguranca :
    (∀ (s : Store) (ids : List Nat),
      (∀ i ∈ ids, i < s.length) →
      (∀ d ∈ s, d.falhaLigar = false ∧ d.falhaDesligar = false) →
      ∃ s', ModoOperacao.aplicar .seguranca s ids = .ok s' ∧
        ∀ j : Nat, s'[j]? =
          if j ∈ ids then (s[j]?).map segTrans else s[j]?) ∧
    (CentralController.setModo ⟨[0, 1, 2], [], none, []⟩
        [⟨.luz, true, false, false⟩, ⟨.camera, false, false, false⟩,
          ⟨.sensor, false, false, false⟩] (some .seguranca) =
      .ok (⟨[0, 1, 2], [], some .seguranca, []⟩,
        [⟨.luz, false, false, false⟩, ⟨.camera, true, false, false⟩,
          ⟨.sensor, true, false, false⟩],
        ["Modo definido: ModoSeguranca"]) ∧
      statusDe [⟨.luz, false, false, false⟩, ⟨.camera, true, false, false⟩,
        ⟨.sensor, true, false, false⟩] 0 = "Luz: Desligada" ∧
      statusDe [⟨.luz, false, false, false⟩, ⟨.camera, true, false, false⟩,
        ⟨.sensor, true, false, false⟩] 1 = "Câmera: Gravando" ∧
      statusDe [⟨.luz, false, false, false⟩, ⟨.camera, true, false, false⟩,
        ⟨.sensor, true, false, false⟩] 2 = "Sensor: Ativo") :=
  ⟨fun s ids h1 h2 => aplicarSeguranca_ok ids s h1 h2, rfl, rfl, rfl, rfl⟩

/-- Witness for C5: the general part applied to a single off camera. -/
theorem C5_witness :
    ∃ s', ModoOperacao.aplicar .seguranca
        [⟨DevTag.camera, false, false, false⟩] [0] = .ok s' ∧
      ∀ j : Nat, s'[j]? =
        if j ∈ [0] then
          (([⟨DevTag.camera, false, false, false⟩] : Store)[j]?).map segTrans
        else ([⟨DevTag.camera, false, false, false⟩] : Store)[j]? :=
  C5_seguranca.1 [⟨DevTag.camera, false, false, false⟩] [0]
    (by simp) (by simp)

/-- Claim C1 as stated is false: a `LigarCommand` on a light that is
already on reports "Luz: Ligada" immediately before the execute, but
execute-then-undo leaves it reporting "Luz: Desligada" — `desfazer`
applies the logical complement of the action, not the prior state. -/
theorem C1_cex :
    CentralController.executarComando ⟨[0], [], none, []⟩
        [⟨.luz, true, false, false⟩] (.ligar 0) "t1" =
      .ok (⟨[0], [.ligar 0], none, []⟩, [⟨.luz, true, false, false⟩],
        ["Comando executado: LigarCommand às t1"]) ∧
    CentralController.desfazerUltimo ⟨[0], [.ligar 0], none, []⟩
        [⟨.luz, true, false, false⟩] "t2" =
      .ok (⟨[0], [], none, []⟩, [⟨.luz, false, false, false⟩],
        ["Comando desfeito: LigarCommand às t2"]) ∧
    statusDe [⟨.luz, true, false, false⟩] 0 = "Luz: Ligada" ∧
    statusDe [⟨.luz, false, false, false⟩] 0 = "Luz: Desligada" ∧
    ("Luz: Ligada" : String) ≠ "Luz: Desligada" :=
  ⟨rfl, rfl, rfl, rfl, by decide⟩

/-- Claim C1 (amended): for a command bound to a non-raising device,
under action-free observers, `executar_comando` followed immediately by
`desfazer_ultimo` always leaves the bound device in the logical
complement of the command's action; the pre-execute status string is
therefore restored exactly when the device already was in that
complement before the execute. -/
theorem C1_roundtrip (cc : CentralController) (s : Store) (cmd : Command)
    (d : Dispositivo) (agora depois : String)
    (hd : s[cmd.dispId]? = some d)
    (h1 : d.falhaLigar = false) (h2 : d.falhaDesligar = false)
    (hobs : ∀ o ∈ cc.notificador, o.acoes = []) :
    ∃ (cc1 cc2 : CentralController) (s1 s2 : Store) (ev1 ev2 : List String),
      cc.executarComando s cmd agora = .ok (cc1, s1, ev1) ∧
      cc1.desfazerUltimo s1 depois = .ok (cc2, s2, ev2) ∧
      s2[cmd.dispId]? = some { d with estado := !cmd.alvo } ∧
      (statusDe s2 cmd.dispId = statusDe s cmd.dispId ↔
        d.estado = !cmd.alvo) := by
  cases cmd with
  | ligar i =>
    simp only [Command.dispId] at hd ⊢
    have hlen : i < s.length := by rw [List.getElem?_eq_some] at hd; exact hd.1
    have hex : Command.executar (.ligar i) s =
        .ok (s.set i { d with estado := true }) := by
      simp [Command.executar, storeLigar, hd, Dispositivo.ligar, h1, Except.map]
    have hnot1 := Notificacao.notificar_sem_acoes cc.notificador
      ("Comando executado: " ++ Command.nomeClasse (.ligar i) ++ " às " ++ agora)
      hobs
    have hrun1 : cc.executarComando s (.ligar i) agora =
        .ok ({ cc with historico := cc.historico ++ [Command.ligar i] },
          s.set i { d with estado := true },
          ["Comando executado: " ++ Command.nomeClasse (.ligar i) ++ " às " ++
            agora]) := by
      unfold CentralController.executarComando
      rw [hex]
      simp [hnot1]
    have hget1 : (s.set i { d with estado := true })[i]? =
        some { d with estado := true } :=
      List.getElem?_set_eq_of_lt _ hlen
    have hdes : Command.desfazer (.ligar i) (s.set i { d with estado := true }) =
        .ok ((s.set i { d with estado := true }).set i
          { d with estado := false }) := by
      simp only [Command.desfazer, storeDesligar, hget1]
      simp [Dispositivo.desligar, h2, Except.map]
    have hnot2 := Notificacao.notificar_sem_acoes cc.notificador
      ("Comando desfeito: " ++ Command.nomeClasse (.ligar i) ++ " às " ++ depois)
      hobs
    have hrun2 : CentralController.desfazerUltimo
        { cc with historico := cc.historico ++ [Command.ligar i] }
        (s.set i { d with estado := true }) depois =
        .ok ({ cc with historico :=
            (cc.historico ++ [Command.ligar i]).dropLast },
          (s.set i { d with estado := true }).set i { d with estado := false },
          ["Comando desfeito: " ++ Command.nomeClasse (.ligar i) ++ " às " ++
            depois]) := by
      unfold CentralController.desfazerUltimo
      simp only [List.getLast?_concat]
      rw [hdes]
      simp [hnot2]
    have hget2 : ((s.set i { d with estado := true }).set i
        { d with estado := false })[i]? = some { d with estado := false } :=
      List.getElem?_set_eq_of_lt _ (by simpa using hlen)
    refine ⟨_, _, _, _, _, _, hrun1, hrun2, hget2, ?_⟩
    have hst2 : statusDe ((s.set i { d with estado := true }).set i
        { d with estado := false }) i =
        Dispositivo.status { d with estado := false } := by
      simp only [statusDe]
      rw [hget2]
    have hst0 : statusDe s i = d.status := by
      simp only [statusDe]
      rw [hd]
    rw [hst2, hst0]
    exact (status_eq_iff d.tag false d.estado d.falhaLigar d.falhaDesligar
      d.falhaLigar d.falhaDesligar).trans eq_comm
  | desligar i =>
    simp only [Command.dispId] at hd ⊢
    have hlen : i < s.length := by rw [List.getElem?_eq_some] at hd; exact hd.1
    have hex : Command.executar (.desligar i) s =
        .ok (s.set i { d with estado := false }) := by
      simp [Command.executar, storeDesligar, hd, Dispositivo.desligar, h2,
        Except.map]
    have hnot1 := Notificacao.notificar_sem_acoes cc.notificador
      ("Comando executado: " ++ Command.nomeClasse (.desligar i) ++ " às " ++
        agora) hobs
    have hrun1 : cc.executarComando s (.desligar i) agora =
        .ok ({ cc with historico := cc.historico ++ [Command.desligar i] },
          s.set i { d with estado := false },
          ["Comando executado: " ++ Command.nomeClasse (.desligar i) ++
            " às " ++ agora]) := by
      unfold CentralController.executarComando
      rw [hex]
      simp [hnot1]
    have hget1 : (s.set i { d with estado := false })[i]? =
        some { d with estado := false } :=
      List.getElem?_set_eq_of_lt _ hlen
    have hdes : Command.desfazer (.desligar i)
        (s.set i { d with estado := false }) =
        .ok ((s.set i { d with estado := false }).set i
          { d with estado := true }) := by
      simp only [Command.desfazer, storeLigar, hget1]
      simp [Dispositivo.ligar, h1, Except.map]
    have hnot2 := Notificacao.notificar_sem_acoes cc.notificador
      ("Comando desfeito: " ++ Command.nomeClasse (.desligar i) ++ " às " ++
        depois) hobs
    have hrun2 : CentralController.desfazerUltimo
        { cc with historico := cc.historico ++ [Command.desligar i] }
        (s.set i { d with estado := false }) depois =
        .ok ({ cc with historico :=
            (cc.historico ++ [Command.desligar i]).dropLast },
          (s.set i { d with estado := false }).set i { d with estado := true },
          ["Comando desfeito: " ++ Command.nomeClasse (.desligar i) ++
            " às " ++ depois]) := by
      unfold CentralController.desfazerUltimo
      simp only [List.getLast?_concat]
      rw [hdes]
      simp [hnot2]
    have hget2 : ((s.set i { d with estado := false }).set i
        { d with estado := true })[i]? = some { d with estado := true } :=
      List.getElem?_set_eq_of_lt _ (by simpa using hlen)
    refine ⟨_, _, _, _, _, _, hrun1, hrun2, hget2, ?_⟩
    have hst2 : statusDe ((s.set i { d with estado := false }).set i
        { d with estado := true }) i =
        Dispositivo.status { d with estado := true } := by
      simp only [statusDe]
      rw [hget2]
    have hst0 : statusDe s i = d.status := by
      simp only [statusDe]
      rw [hd]
    rw [hst2, hst0]
    exact (status_eq_iff d.tag true d.estado d.falhaLigar d.falhaDesligar
      d.falhaLigar d.falhaDesligar).trans eq_comm

/-- Witness for C1: `LigarCommand` on an off Luz — the round trip runs
and, the device having started in the complement of the action, the
status string is restored. -/
theorem C1_witness :
    ∃ (cc1 cc2 : CentralController) (s1 s2 : Store) (ev1 ev2 : List String),
      CentralController.executarComando ⟨[0], [], none, []⟩
          [⟨DevTag.luz, false, false, false⟩] (.ligar 0) "t1" =
        .ok (cc1, s1, ev1) ∧
      cc1.desfazerUltimo s1 "t2" = .ok (cc2, s2, ev2) ∧
      s2[(Command.ligar 0).dispId]? =
        some { (⟨DevTag.luz, false, false, false⟩ : Dispositivo) with
          estado := !(Command.ligar 0).alvo } ∧
      (statusDe s2 (Command.ligar 0).dispId =
          statusDe [⟨DevTag.luz, false, false, false⟩]
            (Command.ligar 0).dispId ↔
        (⟨DevTag.luz, false, false, false⟩ : Dispositivo).estado =
          !(Command.ligar 0).alvo) :=
  C1_roundtrip ⟨[0], [], none, []⟩ [⟨DevTag.luz, false, false, false⟩]
    (.ligar 0) ⟨DevTag.luz, false, false, false⟩ "t1" "t2" rfl rfl rfl
    (by simp)

end CasaInteligente
